import Mathlib

/-!
Verification of `wirecloud/keycloak/social_auth_backend.py`.

The file shallowly embeds the backend's operations:

* the role synchronizer `add_user_groups` (a Django `post_save` receiver),
* `KeycloakOpenIdConnect.get_user_details`,
* `KeycloakOpenIdConnect.parse_incomming_data`,
* `KeycloakOpenIdConnect.end_session_url`,
* `KeycloakOpenIdConnect.auth_complete_params`,

together with the small slices of library behaviour they rely on (Django
session objects and many-to-many group collections, the `jose` JWT decoder,
the `social_core` key discovery).  Python strings are Lean `String`s; Python
dicts with string keys are association lists read through `List.lookup`
(first binding wins, as in a dict that is never shadowed) or functions to
`Option` where the source overwrites keys; absent keys are `none`.
-/

/-- Python `s.strip()`: drop leading and trailing whitespace.  Embedded over
the character list so that the kernel can evaluate it on concrete strings. -/
def pyStrip (s : String) : String :=
  ⟨((s.data.dropWhile Char.isWhitespace).reverse.dropWhile Char.isWhitespace).reverse⟩

/-- Python `s.lower()` (ASCII range, which covers every string these claims
exercise): lowercase each character. -/
def pyLower (s : String) : String :=
  ⟨s.data.map Char.toLower⟩

/-- `role.strip().lower()` — the normalization applied to every role, both in
`get_user_details` and in `add_user_groups`. -/
def normalizeRole (role : String) : String :=
  pyLower (pyStrip role)

/-- The slice of a `social_auth` record's `extra_data` that the synchronizer
reads: the optional `roles` entry (`none` when `'roles' not in extra_data`). -/
structure ExtraData where
  roles : Option (List String)
deriving Repr, DecidableEq

/-- A user as the synchronizer sees it: the ordered collection
`instance.social_auth.all()` and the user's current group memberships
(group names; Django's M2M `add` is idempotent, so the list is kept
duplicate-free by construction). -/
structure UserState where
  socialAuth : List ExtraData
  groups : List String
deriving Repr, DecidableEq

/-- Django M2M `instance.groups.add(g)`: a no-op when the membership already
exists. -/
def addMember (groups : List String) (name : String) : List String :=
  if name ∈ groups then groups else groups ++ [name]

/-- `Group.objects.get_or_create(name=...)` applied to the store of existing
group records (represented by their names): creates the record only when
missing. -/
def getOrCreate (store : List String) (name : String) : List String :=
  if name ∈ store then store else store ++ [name]

/-- The `for role in social.extra_data['roles']` loop body of
`add_user_groups`: normalize the role, get-or-create the group, add the
membership.  Returns the updated memberships and group store. -/
def addRoleGroups : List String → List String → List String → List String × List String
  | [], groups, store => (groups, store)
  | role :: rest, groups, store =>
      let name := normalizeRole role
      addRoleGroups rest (addMember groups name) (getOrCreate store name)

/-- The `post_save` receiver `add_user_groups`: when the user has at least one
`social_auth` record, clear all group memberships, then re-add one group per
role of the first record's `extra_data['roles']` (when that key is present).
Returns the updated user and group store. -/
def add_user_groups (u : UserState) (store : List String) : UserState × List String :=
  match u.socialAuth with
  | [] => (u, store)
  | social :: _ =>
      let cleared : UserState := { u with groups := [] }
      match social.roles with
      | none => (cleared, store)
      | some roles =>
          let p := addRoleGroups roles [] store
          ({ cleared with groups := p.1 }, p.2)

/-- One entry of `realm_access` / `resource_access[client]`: an optional
`roles` list (`none` models a dict without the `roles` key). -/
structure AccessEntry where
  roles : Option (List String)
deriving Repr, DecidableEq

/-- The slice of the decoded `id_token` read by `get_user_details`:
`realm_access` and `resource_access` (a dict from client id to entry), each
optional. -/
structure IdToken where
  realm_access : Option AccessEntry
  resource_access : Option (List (String × AccessEntry))
deriving Repr, DecidableEq

/-- The settings `get_user_details` consults:
`SOCIAL_AUTH_KEYCLOAK_OIDC_GLOBAL_ROLE`, the client id from
`get_key_and_secret()`, and the `USERNAME_KEY` setting (default
`preferred_username`). -/
structure BackendConfig where
  global_role : Bool
  client_id : String
  username_key : String
deriving Repr, DecidableEq

/-- The dict returned by `get_user_details`. -/
structure UserDetails where
  username : Option String
  email : String
  fullname : String
  first_name : String
  last_name : String
  is_superuser : Bool
  is_staff : Bool
  roles : List String
deriving Repr, DecidableEq

/-- The `roles` selection of `get_user_details`:
`id_token.get('realm_access', {}).get('roles', [])` under the global-role
setting, else
`id_token.get('resource_access', {}).get(client_id, {}).get('roles', [])`. -/
def selectedRoles (cfg : BackendConfig) (tok : IdToken) : List String :=
  if cfg.global_role then
    (tok.realm_access.getD { roles := none }).roles.getD []
  else
    (((tok.resource_access.getD []).lookup cfg.client_id).getD { roles := none }).roles.getD []

/-- `KeycloakOpenIdConnect.get_user_details(response)`: select the role list
from the id token, compute the superuser flag, normalize the roles, and read
the name fields from the userinfo `response` (absent name/email keys — and,
via Python `or`, empty values — become `''`; an absent username key stays
`None`). -/
def get_user_details (cfg : BackendConfig) (id_token : IdToken)
    (response : List (String × String)) : UserDetails :=
  let roles := selectedRoles cfg id_token
  let superuser := roles.any (fun role => normalizeRole role == "admin")
  let group_roles := roles.map normalizeRole
  { username := response.lookup cfg.username_key,
    email := (response.lookup "email").getD "",
    fullname := (response.lookup "name").getD "",
    first_name := (response.lookup "given_name").getD "",
    last_name := (response.lookup "family_name").getD "",
    is_superuser := superuser,
    is_staff := superuser,
    roles := group_roles }

/-- `KeycloakOpenIdConnect.end_session_url`:
`self.END_SESSION_URL or self.oidc_config().get('end_session_endpoint')`.
The first argument is the `END_SESSION_URL` attribute (the empty string
unless overridden), the second the discovery document `oidc_config()`.
Python `or` takes the attribute when it is a non-empty (truthy) string and
otherwise falls through to the dict lookup, whose result for an absent key is
`None` — modelled by `none`.  The method is a plain return: it raises
nothing. -/
def end_session_url (end_session_setting : String)
    (oidc_config : List (String × String)) : Option String :=
  if end_session_setting == "" then oidc_config.lookup "end_session_endpoint"
  else some end_session_setting

/-- A JWKS key as `find_valid_key` returns it: the key id and the `alg`
entry (the key material itself is abstracted by the `sigValid` oracle the
theorems quantify over). -/
structure JWTKey where
  kid : String
  alg : String
deriving Repr, DecidableEq

/-- A serialized JWT as `parse_incomming_data` receives it: the key id from
the header, the payload claim set, and the signature part. -/
structure JWToken where
  kid : String
  claims : List (String × String)
  signature : String
deriving Repr, DecidableEq

/-- `social_core`'s `find_valid_key` (the external key-discovery
collaborator): select the JWKS key whose key identifier matches the one in
the token header; `none` when no key matches (the caller then fails). -/
def find_valid_key (keys : List JWTKey) (tok : JWToken) : Option JWTKey :=
  keys.find? (fun k => k.kid == tok.kid)

/-- `jose`'s `jwt.decode(data, key, algorithms, options)`: when `verify` is
requested the signature is checked against the key (`sigValid` abstracts the
cryptographic check) and a bad signature is an error; with
`options={"verify": False}` the claim set is returned without consulting the
signature at all. -/
def jwt_decode (sigValid : JWTKey → JWToken → Bool) (verify : Bool)
    (key : JWTKey) (tok : JWToken) : Option (List (String × String)) :=
  if verify && !sigValid key tok then none else some tok.claims

/-- `KeycloakOpenIdConnect.parse_incomming_data`: resolve the signing key for
the token, then decode the claim set with `options={"verify": False}`;
`none` models the error raised when no key matches. -/
def parse_incomming_data (sigValid : JWTKey → JWToken → Bool)
    (keys : List JWTKey) (tok : JWToken) : Option (List (String × String)) :=
  match find_valid_key keys tok with
  | none => none
  | some key => jwt_decode sigValid false key tok

/-- A Django session object as `auth_complete_params` manipulates it.  Session
keys are abstracted to `Nat`; Django's key generation always produces a key
distinct from the current one, modelled by the successor.  The two Booleans
record the backend's rebinding of the *object's* attributes:
`cycle_disabled` once `session.cycle_key = lambda: None` has run, and
`flush_redirected` once `session.flush = session.clear` has run. -/
structure Session where
  session_key : Nat
  contents : List (String × String)
  cycle_disabled : Bool
  flush_redirected : Bool
deriving Repr, DecidableEq

/-- Django `SessionBase.cycle_key`: keep the data, switch to a freshly
generated (hence different) key — unless the backend has rebound the
attribute to the no-op lambda, in which case nothing happens. -/
def Session.cycle_key (s : Session) : Session :=
  if s.cycle_disabled then s else { s with session_key := s.session_key + 1 }

/-- Django `SessionBase.clear`: empty the session data, key untouched. -/
def Session.clear (s : Session) : Session :=
  { s with contents := [] }

/-- Django `SessionBase.flush`: delete the data and regenerate the key —
unless the backend has rebound the attribute to `clear`, in which case only
the data is emptied. -/
def Session.flush (s : Session) : Session :=
  if s.flush_redirected then s.clear
  else { s with contents := [], session_key := s.session_key + 1 }

/-- Python dict assignment `params[k] = v` on a dict modelled as a function
(assignment overwrites any earlier binding). -/
def dict_update (d : String → Option Nat) (k : String) (v : Nat) :
    String → Option Nat :=
  fun k2 => if k2 = k then some v else d k2

/-- `KeycloakOpenIdConnect.auth_complete_params(state)`: take the base
parameters from the superclass (values abstracted to `Nat`; only the
`client_session_state` entry matters to the claims), call
`session.cycle_key()`, rebind the object's `cycle_key` to a no-op and its
`flush` to `clear`, and send the session's (new) key under
`client_session_state`.  Returns the parameters and the mutated session. -/
def auth_complete_params (base : String → Option Nat) (s : Session) :
    (String → Option Nat) × Session :=
  let s1 := s.cycle_key
  let s2 : Session := { s1 with cycle_disabled := true, flush_redirected := true }
  (dict_update base "client_session_state" s2.session_key, s2)

theorem mem_addRoleGroups_fst (roles : List String) (groups store : List String)
    (g : String) :
    g ∈ (addRoleGroups roles groups store).1 ↔
      g ∈ groups ∨ g ∈ roles.map normalizeRole := by
  induction roles generalizing groups store with
  | nil => simp [addRoleGroups]
  | cons role rest ih =>
      simp only [addRoleGroups, List.map_cons, List.mem_cons]
      rw [ih]
      unfold addMember
      by_cases h : normalizeRole role ∈ groups
      · simp only [if_pos h]
        constructor
        · rintro (hg | hg)
          · exact Or.inl hg
          · exact Or.inr (Or.inr hg)
        · rintro (hg | hg | hg)
          · exact Or.inl hg
          · exact Or.inl (hg ▸ h)
          · exact Or.inr hg
      · simp only [if_neg h, List.mem_append, List.mem_singleton]
        tauto

theorem mem_addRoleGroups_snd (roles : List String) (groups store : List String)
    (g : String) :
    g ∈ (addRoleGroups roles groups store).2 ↔
      g ∈ store ∨ g ∈ roles.map normalizeRole := by
  induction roles generalizing groups store with
  | nil => simp [addRoleGroups]
  | cons role rest ih =>
      simp only [addRoleGroups, List.map_cons, List.mem_cons]
      rw [ih]
      unfold getOrCreate
      by_cases h : normalizeRole role ∈ store
      · simp only [if_pos h]
        constructor
        · rintro (hg | hg)
          · exact Or.inl hg
          · exact Or.inr (Or.inr hg)
        · rintro (hg | hg | hg)
          · exact Or.inl hg
          · exact Or.inl (hg ▸ h)
          · exact Or.inr hg
      · simp only [if_neg h, List.mem_append, List.mem_singleton]
        tauto

theorem addRoleGroups_fst_store_irrel (roles : List String)
    (groups store store' : List String) :
    (addRoleGroups roles groups store).1 = (addRoleGroups roles groups store').1 := by
  induction roles generalizing groups store store' with
  | nil => rfl
  | cons role rest ih => exact ih _ _ _

example :
    (add_user_groups
      { socialAuth := [{ roles := some ["  Admin ", "editor", "ADMIN"] }],
        groups := ["old"] } []).1.groups = ["admin", "editor"] := by decide

example :
    (add_user_groups
      { socialAuth := [{ roles := some ["  Admin ", "editor"] }],
        groups := ["old"] } ["editor"]).2 = ["editor", "admin"] := by decide

/-- C1: with at least one linked identity whose extra-data carries `roles = R`,
after `add_user_groups` the user's group set is exactly the trimmed,
lowercased names of `R`: no membership from before the call survives unless
its name is in that set, every held group exists in the store, and the store
grows only by those names (get-or-create is the only creation path). -/
theorem add_user_groups_reconciles (u : UserState) (store : List String)
    (social : ExtraData) (R : List String)
    (hs : u.socialAuth.head? = some social) (hr : social.roles = some R) :
    (∀ g, g ∈ (add_user_groups u store).1.groups ↔ g ∈ R.map normalizeRole) ∧
    (∀ g, g ∈ (add_user_groups u store).1.groups → g ∈ (add_user_groups u store).2) ∧
    (∀ n, n ∈ (add_user_groups u store).2 ↔ n ∈ store ∨ n ∈ R.map normalizeRole) := by
  obtain ⟨sa, gs⟩ := u
  cases sa with
  | nil => cases hs
  | cons first rest =>
      simp only [List.head?_cons, Option.some.injEq] at hs
      subst hs
      simp only [add_user_groups, hr]
      refine ⟨?_, ?_, ?_⟩
      · intro g
        simpa using mem_addRoleGroups_fst R [] store g
      · intro g hg
        rw [mem_addRoleGroups_snd]
        simp only [mem_addRoleGroups_fst, List.not_mem_nil, false_or] at hg
        exact Or.inr hg
      · intro n
        exact mem_addRoleGroups_snd R [] store n

theorem add_user_groups_reconciles_witness :
    (({ socialAuth := [{ roles := some ["  Admin ", "Editor"] }], groups := ["stale"] } :
        UserState).socialAuth.head? = some { roles := some ["  Admin ", "Editor"] }) ∧
    (ExtraData.roles { roles := some ["  Admin ", "Editor"] } = some ["  Admin ", "Editor"]) ∧
    ("admin" ∈ (add_user_groups
        { socialAuth := [{ roles := some ["  Admin ", "Editor"] }], groups := ["stale"] }
        []).1.groups ↔
      "admin" ∈ (["  Admin ", "Editor"].map normalizeRole)) := by
  refine ⟨rfl, rfl, ?_⟩
  exact (add_user_groups_reconciles
    { socialAuth := [{ roles := some ["  Admin ", "Editor"] }], groups := ["stale"] }
    [] { roles := some ["  Admin ", "Editor"] } ["  Admin ", "Editor"] rfl rfl).1 "admin"

/-- C2: running the synchronizer twice with unchanged `extra_data` leaves the
final group membership of the first run unchanged — `add_user_groups` is
idempotent on memberships. -/
theorem add_user_groups_idempotent (u : UserState) (store : List String) :
    (add_user_groups (add_user_groups u store).1 (add_user_groups u store).2).1.groups =
      (add_user_groups u store).1.groups := by
  obtain ⟨sa, gs⟩ := u
  cases sa with
  | nil => rfl
  | cons social rest =>
      match hr : social.roles with
      | none => simp [add_user_groups, hr]
      | some roles =>
          simp only [add_user_groups, hr]
          exact addRoleGroups_fst_store_irrel roles [] _ _

/-- C3: `get_user_details` takes its role list from `realm_access.roles` when
the global-role setting is on, and from `resource_access[client_id].roles`
otherwise; every missing step of either path yields the empty role list (the
embedding is total, so no error is raised on any of these shapes). -/
theorem get_user_details_role_source (cfg : BackendConfig) (tok : IdToken)
    (resp : List (String × String)) :
    (cfg.global_role = true →
      (∀ e R, tok.realm_access = some e → e.roles = some R →
          (get_user_details cfg tok resp).roles = R.map normalizeRole) ∧
      (tok.realm_access = none → (get_user_details cfg tok resp).roles = []) ∧
      (∀ e, tok.realm_access = some e → e.roles = none →
          (get_user_details cfg tok resp).roles = [])) ∧
    (cfg.global_role = false →
      (∀ ra e R, tok.resource_access = some ra →
          ra.lookup cfg.client_id = some e → e.roles = some R →
          (get_user_details cfg tok resp).roles = R.map normalizeRole) ∧
      (tok.resource_access = none → (get_user_details cfg tok resp).roles = []) ∧
      (∀ ra, tok.resource_access = some ra → ra.lookup cfg.client_id = none →
          (get_user_details cfg tok resp).roles = []) ∧
      (∀ ra e, tok.resource_access = some ra →
          ra.lookup cfg.client_id = some e → e.roles = none →
          (get_user_details cfg tok resp).roles = [])) := by
  constructor
  · intro hg
    refine ⟨?_, ?_, ?_⟩
    · intro e R he hr
      simp [get_user_details, selectedRoles, hg, he, hr]
    · intro he
      simp [get_user_details, selectedRoles, hg, he]
    · intro e he hr
      simp [get_user_details, selectedRoles, hg, he, hr]
  · intro hg
    refine ⟨?_, ?_, ?_, ?_⟩
    · intro ra e R hra hl hr
      simp [get_user_details, selectedRoles, hg, hra, hl, hr]
    · intro hra
      simp [get_user_details, selectedRoles, hg, hra]
    · intro ra hra hl
      simp [get_user_details, selectedRoles, hg, hra, hl]
    · intro ra e hra hl hr
      simp [get_user_details, selectedRoles, hg, hra, hl, hr]

theorem get_user_details_role_source_witness :
    (get_user_details (⟨true, "app1", "preferred_username"⟩ : BackendConfig)
      (⟨some ⟨some ["admin", "editor"]⟩, none⟩ : IdToken) []).roles =
      ["admin", "editor"].map normalizeRole :=
  ((get_user_details_role_source (⟨true, "app1", "preferred_username"⟩ : BackendConfig)
      (⟨some ⟨some ["admin", "editor"]⟩, none⟩ : IdToken) []).1 rfl).1
    ⟨some ["admin", "editor"]⟩ ["admin", "editor"] rfl rfl

/-- C4: `is_superuser` (and the equal `is_staff`) is true exactly when some
selected role, trimmed and lowercased, equals `"admin"`; in particular either
of the roles `"  Admin "` and `"admin"` makes the flags true. -/
theorem get_user_details_superuser (cfg : BackendConfig) (tok : IdToken)
    (resp : List (String × String)) :
    ((get_user_details cfg tok resp).is_superuser = true ↔
        ∃ role ∈ selectedRoles cfg tok, normalizeRole role = "admin") ∧
    (get_user_details cfg tok resp).is_staff =
      (get_user_details cfg tok resp).is_superuser ∧
    ("  Admin " ∈ selectedRoles cfg tok →
      (get_user_details cfg tok resp).is_superuser = true) ∧
    ("admin" ∈ selectedRoles cfg tok →
      (get_user_details cfg tok resp).is_superuser = true) := by
  have hiff : (get_user_details cfg tok resp).is_superuser = true ↔
      ∃ role ∈ selectedRoles cfg tok, normalizeRole role = "admin" := by
    simp [get_user_details, List.any_eq_true]
  refine ⟨hiff, rfl, ?_, ?_⟩
  · intro hmem
    exact hiff.mpr ⟨"  Admin ", hmem, by decide⟩
  · intro hmem
    exact hiff.mpr ⟨"admin", hmem, by decide⟩

theorem get_user_details_superuser_witness :
    ("  Admin " ∈ selectedRoles (⟨true, "app1", "u"⟩ : BackendConfig)
        (⟨some ⟨some ["  Admin "]⟩, none⟩ : IdToken)) ∧
    (get_user_details (⟨true, "app1", "u"⟩ : BackendConfig)
        (⟨some ⟨some ["  Admin "]⟩, none⟩ : IdToken) []).is_superuser = true :=
  ⟨by decide,
    (get_user_details_superuser (⟨true, "app1", "u"⟩ : BackendConfig)
        (⟨some ⟨some ["  Admin "]⟩, none⟩ : IdToken) []).2.2.1 (by decide)⟩

/-- C10: when the configured username key is absent from the userinfo
response, `username` is `None`; the email and name fields instead default to
the empty string when their keys are absent. -/
theorem get_user_details_absent_defaults (cfg : BackendConfig) (tok : IdToken)
    (resp : List (String × String)) (h : resp.lookup cfg.username_key = none) :
    (get_user_details cfg tok resp).username = none ∧
    (resp.lookup "email" = none → (get_user_details cfg tok resp).email = "") ∧
    (resp.lookup "name" = none → (get_user_details cfg tok resp).fullname = "") ∧
    (resp.lookup "given_name" = none →
      (get_user_details cfg tok resp).first_name = "") ∧
    (resp.lookup "family_name" = none →
      (get_user_details cfg tok resp).last_name = "") := by
  refine ⟨by simp [get_user_details, h], fun h2 => ?_, fun h2 => ?_,
    fun h2 => ?_, fun h2 => ?_⟩
  all_goals simp [get_user_details, h2]

theorem get_user_details_absent_defaults_witness :
    (([] : List (String × String)).lookup "preferred_username" = none) ∧
    (get_user_details (⟨false, "app1", "preferred_username"⟩ : BackendConfig)
        (⟨none, none⟩ : IdToken) []).username = none ∧
    (get_user_details (⟨false, "app1", "preferred_username"⟩ : BackendConfig)
        (⟨none, none⟩ : IdToken) []).email = "" :=
  ⟨rfl,
    (get_user_details_absent_defaults (⟨false, "app1", "preferred_username"⟩ : BackendConfig)
        (⟨none, none⟩ : IdToken) [] rfl).1,
    (get_user_details_absent_defaults (⟨false, "app1", "preferred_username"⟩ : BackendConfig)
        (⟨none, none⟩ : IdToken) [] rfl).2.1 rfl⟩

/-- C9 counterexample: with no configured override and a discovery document
lacking `end_session_endpoint`, `end_session_url` returns the absent value
`None` — it does not fail with a `ConfigurationError` (the embedding is a
total function into `Option`; `none` is a normal return, not an exception). -/
theorem end_session_url_none_on_missing : end_session_url "" [] = none := rfl

/-- C9 amended: `end_session_url` returns the configured override when it is
non-empty, and otherwise the discovery document's `end_session_endpoint`
entry; when neither is present the result is the absent value `None`, and no
error of any kind is raised. -/
theorem end_session_url_spec (setting : String) (doc : List (String × String)) :
    (setting ≠ "" → end_session_url setting doc = some setting) ∧
    (setting = "" → end_session_url setting doc = doc.lookup "end_session_endpoint") := by
  constructor
  · intro h
    simp [end_session_url, h]
  · intro h
    simp [end_session_url, h]

theorem end_session_url_spec_witness :
    ("https://idp.example/logout" ≠ "") ∧
    end_session_url "https://idp.example/logout" [] = some "https://idp.example/logout" :=
  ⟨by decide, (end_session_url_spec "https://idp.example/logout" []).1 (by decide)⟩

/-- C5: decoding ignores the signature — two tokens that agree on header key
id and payload but differ arbitrarily in their signature part decode to the
same claim set whenever a signing key resolves, for every possible
signature-validity oracle (in particular when one signature is valid and the
other forged). -/
theorem parse_incomming_data_ignores_signature
    (sigValid : JWTKey → JWToken → Bool) (keys : List JWTKey)
    (t1 t2 : JWToken) (hkid : t1.kid = t2.kid) (hclaims : t1.claims = t2.claims)
    (hkey : (find_valid_key keys t1).isSome = true) :
    parse_incomming_data sigValid keys t1 = parse_incomming_data sigValid keys t2 ∧
    parse_incomming_data sigValid keys t1 = some t1.claims := by
  have hfind : find_valid_key keys t1 = find_valid_key keys t2 := by
    unfold find_valid_key
    rw [hkid]
  match hk : find_valid_key keys t1 with
  | none => rw [hk] at hkey; cases hkey
  | some key =>
      constructor
      · unfold parse_incomming_data
        rw [hk, ← hfind, hk]
        simp [jwt_decode, hclaims]
      · unfold parse_incomming_data
        rw [hk]
        simp [jwt_decode]

theorem parse_incomming_data_ignores_signature_witness :
    ((⟨"k1", [("sub", "alice"), ("roles", "admin")], "genuine"⟩ : JWToken).kid =
      (⟨"k1", [("sub", "alice"), ("roles", "admin")], "forged"⟩ : JWToken).kid) ∧
    ((⟨"k1", [("sub", "alice"), ("roles", "admin")], "genuine"⟩ : JWToken).claims =
      (⟨"k1", [("sub", "alice"), ("roles", "admin")], "forged"⟩ : JWToken).claims) ∧
    ((find_valid_key [⟨"k1", "RS256"⟩]
        (⟨"k1", [("sub", "alice"), ("roles", "admin")], "genuine"⟩ : JWToken)).isSome = true) ∧
    parse_incomming_data (fun _ t => t.signature == "genuine") [⟨"k1", "RS256"⟩]
        (⟨"k1", [("sub", "alice"), ("roles", "admin")], "genuine"⟩ : JWToken) =
      parse_incomming_data (fun _ t => t.signature == "genuine") [⟨"k1", "RS256"⟩]
        (⟨"k1", [("sub", "alice"), ("roles", "admin")], "forged"⟩ : JWToken) :=
  ⟨rfl, rfl, by decide,
    (parse_incomming_data_ignores_signature (fun _ t => t.signature == "genuine")
      [⟨"k1", "RS256"⟩]
      (⟨"k1", [("sub", "alice"), ("roles", "admin")], "genuine"⟩ : JWToken)
      (⟨"k1", [("sub", "alice"), ("roles", "admin")], "forged"⟩ : JWToken)
      rfl rfl (by decide)).1⟩

/-- C6 counterexample: on a session on which `auth_complete_params` has
already run (so the object's `cycle_key` is the no-op lambda), a second call
sends exactly the identifier the session held immediately before the call and
leaves the key unchanged — no rotation happens, refuting "rotated exactly
once per call" on every session. -/
theorem auth_complete_params_no_second_rotation :
    ((auth_complete_params (fun _ => none)
        ((auth_complete_params (fun _ => none) ⟨0, [], false, false⟩).2)).1
      "client_session_state" =
      some ((auth_complete_params (fun _ => none) ⟨0, [], false, false⟩).2).session_key) ∧
    ((auth_complete_params (fun _ => none)
        ((auth_complete_params (fun _ => none) ⟨0, [], false, false⟩).2)).2).session_key =
      ((auth_complete_params (fun _ => none) ⟨0, [], false, false⟩).2).session_key := by
  constructor <;> rfl

/-- C6 amended: on a session whose `cycle_key` has not been disabled by a
previous call (every fresh request), `auth_complete_params` rotates the key
exactly once and sends the new key — different from the pre-call one — under
`client_session_state`; on a session already processed by a previous call the
identifier is unchanged and the pre-call key is re-sent. -/
theorem auth_complete_params_rotation (base : String → Option Nat) (s : Session) :
    (s.cycle_disabled = false →
      ((auth_complete_params base s).1 "client_session_state" =
          some (auth_complete_params base s).2.session_key ∧
        (auth_complete_params base s).2.session_key ≠ s.session_key)) ∧
    (s.cycle_disabled = true →
      (auth_complete_params base s).1 "client_session_state" = some s.session_key) := by
  constructor
  · intro h
    constructor
    · simp [auth_complete_params, dict_update]
    · simp [auth_complete_params, Session.cycle_key, h]
  · intro h
    simp [auth_complete_params, dict_update, Session.cycle_key, h]

theorem auth_complete_params_rotation_witness :
    ((⟨0, [], false, false⟩ : Session).cycle_disabled = false) ∧
    (auth_complete_params (fun _ => none) (⟨0, [], false, false⟩ : Session)).2.session_key ≠
      (⟨0, [], false, false⟩ : Session).session_key :=
  ⟨rfl, ((auth_complete_params_rotation (fun _ => none) ⟨0, [], false, false⟩).1 rfl).2⟩

/-- C7: on the session state returned by `auth_complete_params`, `flush`
behaves as `clear`: it empties the session contents but leaves the rotated
session key unchanged, so the identifier sent to the identity provider stays
valid for the whole round-trip. -/
theorem auth_complete_params_flush_is_clear (base : String → Option Nat)
    (s : Session) :
    (auth_complete_params base s).2.flush.session_key =
      (auth_complete_params base s).2.session_key ∧
    (auth_complete_params base s).2.flush.contents = [] ∧
    (auth_complete_params base s).2.flush = (auth_complete_params base s).2.clear := by
  refine ⟨?_, ?_, ?_⟩ <;>
    simp [auth_complete_params, Session.flush, Session.clear]

/-- C8 counterexample: the rotation lock is not released at flow termination —
at a concrete input, the final session state the source ever produces (its
last write to the session in the whole flow) still has `cycle_key` disabled
and `flush` redirected; no operation in the source resets either. -/
theorem rotation_lock_not_released :
    (auth_complete_params (fun _ => none)
        (⟨0, [], false, false⟩ : Session)).2.cycle_disabled = true ∧
    (auth_complete_params (fun _ => none)
        (⟨0, [], false, false⟩ : Session)).2.flush_redirected = true :=
  ⟨rfl, rfl⟩

/-- C8 amended: the lock engaged by `auth_complete_params` persists in the
session object it returns — `cycle_key` remains a no-op (and `flush` remains
`clear`) for every later use of that object; normal rotation behaviour
returns only when the request-scoped session object is discarded, which
happens outside this code. -/
theorem rotation_lock_persists (base : String → Option Nat) (s : Session) :
    (auth_complete_params base s).2.cycle_disabled = true ∧
    (auth_complete_params base s).2.flush_redirected = true ∧
    (auth_complete_params base s).2.cycle_key = (auth_complete_params base s).2 := by
  refine ⟨rfl, rfl, ?_⟩
  simp [auth_complete_params, Session.cycle_key]
